import Mathlib

/-!
Shallow embedding of the SupplyChainTrackingChaincode Go contract
(files TransFer.go and Quires.go) and proofs about its transfer protocol.

Modelling conventions:
* The Fabric ledger visible to one invocation is a `Ledger` value threaded
  explicitly: public world state (`pubState`), per-key state-based
  endorsement policies (`validationParam`, modelled as the list of orgs
  passed to `statebased.AddOrgs`), and per-collection private data
  (`privData`).
* Mutating entry points return `Option Err × Ledger` (Go `error` plus the
  ledger holding every write performed before returning); read-only ones
  return `Except Err _`.  An error result paired with an unchanged ledger
  is exactly "the call aborted with zero ledger writes".
* SHA-256 (package `crypto/sha256`, and the hash Fabric computes for
  `GetPrivateDataHash`) is an uninterpreted parameter
  `sha256 : List Nat → List Nat` over byte lists; every use in the source
  is the same function, which is all the proved properties need.
  `hex.EncodeToString` is implemented concretely.
* `json.Marshal`/`json.Unmarshal` of the `Commodity` struct round-trip
  (all fields are exported with tags), so public state stores `Commodity`
  values directly.  `json.Unmarshal` into `Agreement` is a parameter
  `parseAgreement`.  `json.Marshal` of the `receipt` struct is modelled
  precisely (see `marshalReceipt`): both of its fields are unexported.
* Fabric's `CreateCompositeKey` produces keys starting with a reserved
  0x00 byte, disjoint from plain string keys; `PKey` keeps that
  injectivity with an inductive type.
* Ledger read/write transport errors and identity-extraction failures of
  the host are the `none` cases of `Ctx`/`Ledger` fields; the `Quires.go`
  entry points other than `ReadCommodity` only perform reads and are not
  needed by the proved properties.
-/

/-- Public record, one per asset (struct `Commodity` in TransFer.go). -/
structure Commodity where
  objectType : String
  id : String
  ownerOrg : String
  source : String
  target : String
  publicDescription : String
  detailedInformation : String
deriving DecidableEq

/-- Struct `Agreement` in Quires.go (the structured form of a transfer key). -/
structure Agreement where
  id : String
  transferKey : Int
  transferID : String
deriving DecidableEq

/-- Struct `receipt` in TransFer.go.  Both fields are unexported
(lowercase) in the Go source; `timestamp` (Go `time.Time`) is modelled as
a natural number. -/
structure Receipt where
  transferKey : Int
  timestamp : Nat
deriving DecidableEq

/-- Every distinct `fmt.Errorf` site reached by the modelled code paths. -/
inductive Err where
  | identityError
  | peerIdentityError
  | clientPeerMismatch (clientOrg peerOrg : String)
  | transientMissing (key : String)
  | unmarshalAgreementFailed
  | commodityNotFound (commodityID : String)
  | descNotOwner (clientOrg ownerOrg : String)
  | putNotOwner (clientOrg ownerOrg : String)
  | transferNotOwner (clientOrg ownerOrg : String)
  | putterPropsHashMissing (commodityID : String)
  | getterPropsHashMissing (commodityID : String)
  | propsHashMismatch (ownerHash getterHash : List Nat)
  | upstreamKeyMissing (commodityID : String)
  | downstreamKeyMissing (commodityID : String)
  | upstreamKeyMismatch (calculated onChain : List Nat)
  | downstreamKeyMismatch (calculated onChain : List Nat)
  | verifyPropsHashMissing (commodityID : String)
  | verifyHashMismatch (calculated props onChain : List Nat)
  | verifyIdMismatch (calculated props onChain : List Nat) (commodityID : String)
  | timestampError
deriving DecidableEq

/-- The error sites whose Go message is of the "... does not exist" form
(the spec's `NotFoundError` taxonomy class). -/
def Err.isNotFound : Err → Bool
  | .commodityNotFound _ => true
  | .putterPropsHashMissing _ => true
  | .getterPropsHashMissing _ => true
  | .upstreamKeyMissing _ => true
  | .downstreamKeyMissing _ => true
  | .verifyPropsHashMissing _ => true
  | _ => false

/-- A private-data key: either a plain string key or a composite key built
by `CreateCompositeKey objectType attributes` (Fabric composite keys live
in a namespace disjoint from plain keys, which the two constructors keep). -/
inductive PKey where
  | simple (k : String)
  | composite (objectType : String) (attributes : List String)
deriving DecidableEq

/-- Constant `typeCommodityForTransfer` in TransFer.go. -/
def typeCommodityForTransfer : String := "T"

/-- Constant `typeCommodityKey` in TransFer.go. -/
def typeCommodityKey : String := "K"

/-- Constant `typeCommodityPutReceipt` in TransFer.go. -/
def typeCommodityPutReceipt : String := "PR"

/-- Constant `typeCommodityGetReceipt` in TransFer.go. -/
def typeCommodityGetReceipt : String := "GR"

/-- Pointwise update of a function, the semantics of a single ledger write. -/
def updFn {α β : Type} [DecidableEq α] (f : α → β) (a : α) (b : β) : α → β :=
  fun x => if x = a then b else f x

@[simp]
theorem updFn_same {α β : Type} [DecidableEq α] (f : α → β) (a : α) (b : β) :
    updFn f a b a = b := by
  simp [updFn]

theorem updFn_ne {α β : Type} [DecidableEq α] (f : α → β) (a : α) (b : β)
    (x : α) (h : x ≠ a) : updFn f a b x = f x := by
  simp [updFn, h]

/-- The ledger state touched by one invocation. -/
structure Ledger where
  pubState : String → Option Commodity
  validationParam : String → Option (List String)
  privData : String × PKey → Option (List Nat)

/-- `PutState`. -/
def Ledger.putState (l : Ledger) (k : String) (c : Commodity) : Ledger :=
  { l with pubState := updFn l.pubState k (some c) }

/-- `SetStateValidationParameter` (the policy is kept as its org list). -/
def Ledger.setValidationParam (l : Ledger) (k : String) (orgs : List String) : Ledger :=
  { l with validationParam := updFn l.validationParam k (some orgs) }

/-- `PutPrivateData`. -/
def Ledger.putPrivate (l : Ledger) (collection : String) (k : PKey) (v : List Nat) : Ledger :=
  { l with privData := updFn l.privData (collection, k) (some v) }

/-- `DelPrivateData`. -/
def Ledger.delPrivate (l : Ledger) (collection : String) (k : PKey) : Ledger :=
  { l with privData := updFn l.privData (collection, k) none }

/-- The per-invocation transaction context: resolved client org
(`GetClientIdentity().GetMSPID()`), the executing peer's org
(`shim.GetMSPID()`), the transient map, `GetTxID` and `GetTxTimestamp`
(already converted by `ptypes.Timestamp`; `none` is a conversion or host
failure). -/
structure Ctx where
  clientOrgID : Option String
  peerOrgID : Option String
  transient : String → Option (List Nat)
  txID : String
  txTimestamp : Option Nat

/-- `getClientOrgID` in TransFer.go. -/
def getClientOrgID (ctx : Ctx) : Except Err String :=
  match ctx.clientOrgID with
  | none => .error .identityError
  | some clientOrgID => .ok clientOrgID

/-- `verifyClientOrgMatchesPeerOrg` in TransFer.go. -/
def verifyClientOrgMatchesPeerOrg (ctx : Ctx) (clientOrgID : String) : Except Err Unit :=
  match ctx.peerOrgID with
  | none => .error .peerIdentityError
  | some peerOrgID =>
    if clientOrgID ≠ peerOrgID then
      .error (.clientPeerMismatch clientOrgID peerOrgID)
    else
      .ok ()

/-- `buildCollectionName` in TransFer.go:
`fmt.Sprintf("_implicit_org_%s", clientOrgID)`. -/
def buildCollectionName (clientOrgID : String) : String :=
  "_implicit_org_" ++ clientOrgID

/-- One hex digit, lowercase, as produced by Go's `encoding/hex`. -/
def hexDigit (n : Nat) : Char :=
  if n < 10 then Char.ofNat (48 + n) else Char.ofNat (87 + n)

/-- `hex.EncodeToString`: each byte (a natural below 256) becomes its two
lowercase hex digits, high nibble first. -/
def hexEncodeToString (bs : List Nat) : String :=
  String.mk (bs.foldr (fun b acc => hexDigit (b / 16) :: hexDigit (b % 16) :: acc) [])

/-- `GetPrivateDataHash`: Fabric returns the SHA-256 hash of the stored
private value, or nil when the key is absent. -/
def getPrivateDataHash (sha256 : List Nat → List Nat) (l : Ledger)
    (collection : String) (k : PKey) : Option (List Nat) :=
  (l.privData (collection, k)).map sha256

/-- `json.Marshal` applied to the `receipt` struct value.  Both fields of
the Go struct (`transferKey`, `timestamp`) are unexported, and Go's
`encoding/json` silently skips unexported fields, so the marshalled bytes
are always the two-byte empty JSON object (bytes 123 and 125, i.e.
"\x7b\x7d"), whatever the receipt's field values are. -/
def marshalReceipt (_r : Receipt) : List Nat := [123, 125]

/-- `setCommodityStateBasedEndorsement` in TransFer.go: builds a
state-based endorsement policy requiring the peer role of each listed org
and attaches it to the asset's key. -/
def setCommodityStateBasedEndorsement (l : Ledger) (assetID : String)
    (orgesToEndorse : List String) : Ledger :=
  l.setValidationParam assetID orgesToEndorse

/-- `ReadCommodity` in Quires.go: returns the public commodity record, or
the "does not exist" error when the key is absent.  No authorization
check. -/
def ReadCommodity (l : Ledger) (commodityID : String) : Except Err Commodity :=
  match l.pubState commodityID with
  | none => .error (.commodityNotFound commodityID)
  | some commodity => .ok commodity

/-- `CreateAsset` in TransFer.go: hashes the transient attribute blob into
the commodity id, writes the public record with the caller as owner and
source, sets the endorsement policy to the caller's org, and stores the
blob in the caller's implicit collection.  No existence check is made
before `PutState`. -/
def CreateAsset (sha256 : List Nat → List Nat) (ctx : Ctx) (l : Ledger)
    (target publicDescription : String) : Except Err String × Ledger :=
  match ctx.transient "commodity_properties" with
  | none => (.error (.transientMissing "commodity_properties"), l)
  | some immutablePropertiesJSON =>
    let commodityID := hexEncodeToString (sha256 immutablePropertiesJSON)
    match getClientOrgID ctx with
    | .error e => (.error e, l)
    | .ok clientOrgID =>
      match verifyClientOrgMatchesPeerOrg ctx clientOrgID with
      | .error e => (.error e, l)
      | .ok _ =>
        let commodity : Commodity :=
          { objectType := "Commodity"
            id := commodityID
            ownerOrg := clientOrgID
            source := clientOrgID
            target := target
            publicDescription := publicDescription
            detailedInformation := "" }
        let l1 := l.putState commodityID commodity
        let l2 := setCommodityStateBasedEndorsement l1 commodity.id [clientOrgID]
        let collection := buildCollectionName clientOrgID
        let l3 := l2.putPrivate collection (.simple commodityID) immutablePropertiesJSON
        (.ok commodityID, l3)

/-- `ChangePublicDescription` in TransFer.go: only the current owner org
may update the public description. -/
def ChangePublicDescription (ctx : Ctx) (l : Ledger)
    (commodityID newDescription : String) : Option Err × Ledger :=
  match getClientOrgID ctx with
  | .error e => (some e, l)
  | .ok clientOrgID =>
    match ReadCommodity l commodityID with
    | .error e => (some e, l)
    | .ok commodity =>
      if clientOrgID ≠ commodity.ownerOrg then
        (some (.descNotOwner clientOrgID commodity.ownerOrg), l)
      else
        (none, l.putState commodityID { commodity with publicDescription := newDescription })

/-- `agreeToTransfer` in TransFer.go: stores the transient transfer key
blob verbatim under the role-scoped composite key in the caller's own
implicit collection. -/
def agreeToTransfer (ctx : Ctx) (l : Ledger) (commodityID transferType : String) :
    Option Err × Ledger :=
  match getClientOrgID ctx with
  | .error e => (some e, l)
  | .ok clientOrgID =>
    match ctx.transient "commodity_transferKey" with
    | none => (some (.transientMissing "commodity_transferKey"), l)
    | some transferKey =>
      let collection := buildCollectionName clientOrgID
      (none, l.putPrivate collection (.composite transferType [commodityID]) transferKey)

/-- `AgreeToPut` in TransFer.go: the current owner records its transfer
key commitment under the owner-side composite key. -/
def AgreeToPut (ctx : Ctx) (l : Ledger) (commodityID : String) : Option Err × Ledger :=
  match ReadCommodity l commodityID with
  | .error e => (some e, l)
  | .ok asset =>
    match getClientOrgID ctx with
    | .error e => (some e, l)
    | .ok clientOrgID =>
      match verifyClientOrgMatchesPeerOrg ctx clientOrgID with
      | .error e => (some e, l)
      | .ok _ =>
        if clientOrgID ≠ asset.ownerOrg then
          (some (.putNotOwner clientOrgID asset.ownerOrg), l)
        else
          agreeToTransfer ctx l commodityID typeCommodityForTransfer

/-- `AgreeToGet` in TransFer.go: the prospective recipient stores its
attribute-blob copy under the commodity id and its transfer key
commitment under the recipient-side composite key.  No ownership check. -/
def AgreeToGet (ctx : Ctx) (l : Ledger) (CommodityID : String) : Option Err × Ledger :=
  match getClientOrgID ctx with
  | .error e => (some e, l)
  | .ok clientOrgID =>
    match verifyClientOrgMatchesPeerOrg ctx clientOrgID with
    | .error e => (some e, l)
    | .ok _ =>
      match ctx.transient "Commodity_properties" with
      | none => (some (.transientMissing "Commodity_properties"), l)
      | some immutablePropertiesJSON =>
        let collection := buildCollectionName clientOrgID
        let l1 := l.putPrivate collection (.simple CommodityID) immutablePropertiesJSON
        agreeToTransfer ctx l1 CommodityID typeCommodityKey

/-- `VerifyCommodityProperties` in TransFer.go: recomputes the digest of
the caller-supplied attribute blob and checks it against the owner's
on-chain private-data hash, then checks that hash against the commodity
id; the two failures carry distinct error messages. -/
def VerifyCommodityProperties (sha256 : List Nat → List Nat) (ctx : Ctx) (l : Ledger)
    (commodityID : String) : Except Err Bool :=
  match ctx.transient "Commodity_properties" with
  | none => .error (.transientMissing "Commodity_properties")
  | some immutablePropertiesJSON =>
    match ReadCommodity l commodityID with
    | .error e => .error e
    | .ok commodity =>
      match getPrivateDataHash sha256 l (buildCollectionName commodity.ownerOrg)
          (.simple commodityID) with
      | none => .error (.verifyPropsHashMissing commodityID)
      | some immutablePropertiesOnChainHash =>
        let calculatedPropertiesHash := sha256 immutablePropertiesJSON
        if calculatedPropertiesHash ≠ immutablePropertiesOnChainHash then
          .error (.verifyHashMismatch calculatedPropertiesHash immutablePropertiesJSON
            immutablePropertiesOnChainHash)
        else if hexEncodeToString immutablePropertiesOnChainHash ≠ commodityID then
          .error (.verifyIdMismatch calculatedPropertiesHash immutablePropertiesJSON
            immutablePropertiesOnChainHash commodityID)
        else
          .ok true

/-- `verifyTransferConditions` in TransFer.go: CHECK1 ownership, CHECK2
equality of both parties' on-chain attribute hashes, CHECK3 the disclosed
transfer key's digest against both stored commitment hashes.  (The Go
parameter for the recipient is named `upstreamOrgID`; the call site passes
`downStreamOrgID`.) -/
def verifyTransferConditions (sha256 : List Nat → List Nat) (l : Ledger)
    (commodity : Commodity) (clientOrgID upstreamOrgID : String)
    (transferKayJSON : List Nat) : Option Err :=
  if clientOrgID ≠ commodity.ownerOrg then
    some (.transferNotOwner clientOrgID commodity.ownerOrg)
  else
    let collectionPutter := buildCollectionName clientOrgID
    let collectionGetter := buildCollectionName upstreamOrgID
    match getPrivateDataHash sha256 l collectionPutter (.simple commodity.id) with
    | none => some (.putterPropsHashMissing commodity.id)
    | some ownerPropertiesOnChainHash =>
      match getPrivateDataHash sha256 l collectionGetter (.simple commodity.id) with
      | none => some (.getterPropsHashMissing commodity.id)
      | some GetterPropertiesOnChainHash =>
        if ownerPropertiesOnChainHash ≠ GetterPropertiesOnChainHash then
          some (.propsHashMismatch ownerPropertiesOnChainHash GetterPropertiesOnChainHash)
        else
          match getPrivateDataHash sha256 l collectionPutter
              (.composite typeCommodityForTransfer [commodity.id]) with
          | none => some (.upstreamKeyMissing commodity.id)
          | some upstreamTransferKeyHash =>
            match getPrivateDataHash sha256 l collectionGetter
                (.composite typeCommodityKey [commodity.id]) with
            | none => some (.downstreamKeyMissing commodity.id)
            | some downstreamTransferKeyHash =>
              let calculatedKeyHash := sha256 transferKayJSON
              if calculatedKeyHash ≠ upstreamTransferKeyHash then
                some (.upstreamKeyMismatch calculatedKeyHash upstreamTransferKeyHash)
              else if calculatedKeyHash ≠ downstreamTransferKeyHash then
                some (.downstreamKeyMismatch calculatedKeyHash downstreamTransferKeyHash)
              else
                none

/-- `transferCommodityState` in TransFer.go, in source order: public
record update, endorsement-policy reset, deletion of the former owner's
attribute blob and of both commitment records, then the two receipts
(getter-side keyed `(commodityID, txID)`, putter-side keyed
`(txID, commodityID)`).  `GetTxTimestamp`/`ptypes.Timestamp` failure
aborts between the deletions and the receipt writes. -/
def transferCommodityState (ctx : Ctx) (l : Ledger) (commodity : Commodity)
    (clientOrgID upstreamOrgID : String) (transferKey : Int) : Option Err × Ledger :=
  let updated := { commodity with source := commodity.ownerOrg, ownerOrg := upstreamOrgID }
  let l1 := l.putState updated.id updated
  let l2 := setCommodityStateBasedEndorsement l1 updated.id [upstreamOrgID]
  let collectionPutter := buildCollectionName clientOrgID
  let l3 := l2.delPrivate collectionPutter (.simple updated.id)
  let l4 := l3.delPrivate collectionPutter (.composite typeCommodityForTransfer [updated.id])
  let collectionGetter := buildCollectionName upstreamOrgID
  let l5 := l4.delPrivate collectionGetter (.composite typeCommodityKey [updated.id])
  match ctx.txTimestamp with
  | none => (some .timestampError, l5)
  | some timestamp =>
    let commodityReceipt : Receipt := { transferKey := transferKey, timestamp := timestamp }
    let receiptBytes := marshalReceipt commodityReceipt
    let l6 := l5.putPrivate collectionGetter
      (.composite typeCommodityGetReceipt [updated.id, ctx.txID]) receiptBytes
    let l7 := l6.putPrivate collectionPutter
      (.composite typeCommodityPutReceipt [ctx.txID, updated.id]) receiptBytes
    (none, l7)

/-- `TransferCommodity` in TransFer.go: resolve the caller, read the
disclosed transfer key from the transient map, unmarshal it, read the
commodity, run `verifyTransferConditions`, and only then mutate via
`transferCommodityState`. -/
def TransferCommodity (sha256 : List Nat → List Nat)
    (parseAgreement : List Nat → Option Agreement) (ctx : Ctx) (l : Ledger)
    (commodityID downStreamOrgID : String) : Option Err × Ledger :=
  match getClientOrgID ctx with
  | .error e => (some e, l)
  | .ok clientOrgID =>
    match ctx.transient "Commodity_transferKey" with
    | none => (some (.transientMissing "Commodity_transferKey"), l)
    | some transferKeyJSON =>
      match parseAgreement transferKeyJSON with
      | none => (some .unmarshalAgreementFailed, l)
      | some agreement =>
        match ReadCommodity l commodityID with
        | .error e => (some e, l)
        | .ok commodity =>
          match verifyTransferConditions sha256 l commodity clientOrgID downStreamOrgID
              transferKeyJSON with
          | some e => (some e, l)
          | none =>
            transferCommodityState ctx l commodity clientOrgID downStreamOrgID
              agreement.transferKey

/-- CHECK1 of `verifyTransferConditions`: the caller org owns the commodity. -/
def CHECK1 (commodity : Commodity) (clientOrgID : String) : Prop :=
  clientOrgID = commodity.ownerOrg

/-- CHECK2 of `verifyTransferConditions`: both parties' on-chain private
attribute hashes for the commodity are present and equal. -/
def CHECK2 (sha256 : List Nat → List Nat) (l : Ledger) (commodity : Commodity)
    (clientOrgID upstreamOrgID : String) : Prop :=
  (getPrivateDataHash sha256 l (buildCollectionName clientOrgID)
    (.simple commodity.id)).isSome = true ∧
  getPrivateDataHash sha256 l (buildCollectionName clientOrgID) (.simple commodity.id)
    = getPrivateDataHash sha256 l (buildCollectionName upstreamOrgID) (.simple commodity.id)

/-- CHECK3 of `verifyTransferConditions`: the digest of the disclosed
transfer key blob equals both stored commitment hashes (each therefore
present). -/
def CHECK3 (sha256 : List Nat → List Nat) (l : Ledger) (commodity : Commodity)
    (clientOrgID upstreamOrgID : String) (transferKayJSON : List Nat) : Prop :=
  getPrivateDataHash sha256 l (buildCollectionName clientOrgID)
    (.composite typeCommodityForTransfer [commodity.id]) = some (sha256 transferKayJSON) ∧
  getPrivateDataHash sha256 l (buildCollectionName upstreamOrgID)
    (.composite typeCommodityKey [commodity.id]) = some (sha256 transferKayJSON)

/-- A private-data key in one of the two receipt sub-namespaces. -/
def isReceiptKey : PKey → Bool
  | .composite objectType _ =>
    objectType == typeCommodityGetReceipt || objectType == typeCommodityPutReceipt
  | .simple _ => false

/-- Concrete digest instantiation used by the concrete executions below:
the identity on byte lists. -/
def idSha : List Nat → List Nat := fun bs => bs

/-- Concrete `json.Unmarshal` into `Agreement`: only the byte blob used as
the T1 transfer key in the scenario parses. -/
def parseT1 : List Nat → Option Agreement := fun bs =>
  if bs = [1, 2] then some { id := "ab", transferKey := 5, transferID := "T1" } else none

/-- The empty ledger. -/
def emptyLedger : Ledger :=
  { pubState := fun _ => none, validationParam := fun _ => none, privData := fun _ => none }

/-- Scenario context: OrgA creating the commodity from blob [171]. -/
def ctxCreateA : Ctx :=
  { clientOrgID := some "OrgA", peerOrgID := some "OrgA"
    transient := fun k => if k = "commodity_properties" then some [171] else none
    txID := "tx0", txTimestamp := some 0 }

/-- Scenario context: OrgB creating an asset from the same blob [171]. -/
def ctxCreateB : Ctx :=
  { clientOrgID := some "OrgB", peerOrgID := some "OrgB"
    transient := fun k => if k = "commodity_properties" then some [171] else none
    txID := "tx9", txTimestamp := some 0 }

/-- Scenario context: OrgA agreeing to put with transfer key blob [1, 2]. -/
def ctxPutA : Ctx :=
  { clientOrgID := some "OrgA", peerOrgID := some "OrgA"
    transient := fun k => if k = "commodity_transferKey" then some [1, 2] else none
    txID := "txP", txTimestamp := some 1 }

/-- Scenario context: OrgB agreeing to get with blob [171] and the same
transfer key blob [1, 2]. -/
def ctxGetB : Ctx :=
  { clientOrgID := some "OrgB", peerOrgID := some "OrgB"
    transient := fun k =>
      if k = "Commodity_properties" then some [171]
      else if k = "commodity_transferKey" then some [1, 2] else none
    txID := "txG", txTimestamp := some 2 }

/-- Scenario context: OrgA transferring, disclosing the T1 blob [1, 2]. -/
def ctxTransferA : Ctx :=
  { clientOrgID := some "OrgA", peerOrgID := some "OrgA"
    transient := fun k => if k = "Commodity_transferKey" then some [1, 2] else none
    txID := "tx1", txTimestamp := some 7 }

/-- Scenario context: OrgA repeating the same transfer in a later tx. -/
def ctxTransferA2 : Ctx :=
  { clientOrgID := some "OrgA", peerOrgID := some "OrgA"
    transient := fun k => if k = "Commodity_transferKey" then some [1, 2] else none
    txID := "tx2", txTimestamp := some 9 }

/-- Scenario context: OrgB as a caller with no transient payload. -/
def ctxPlainB : Ctx :=
  { clientOrgID := some "OrgB", peerOrgID := some "OrgB"
    transient := fun _ => none, txID := "tx3", txTimestamp := some 3 }

/-- Ledger after OrgA's create; the commodity id is
`hexEncodeToString (idSha [171]) = "ab"`. -/
def ledgerCreated : Ledger := (CreateAsset idSha ctxCreateA emptyLedger "OrgB" "hello").2

/-- The public record written by that create. -/
def commodityAB : Commodity :=
  { objectType := "Commodity", id := "ab", ownerOrg := "OrgA", source := "OrgA"
    target := "OrgB", publicDescription := "hello", detailedInformation := "" }

/-- Ledger after OrgA's `AgreeToPut`. -/
def ledgerPut : Ledger := (AgreeToPut ctxPutA ledgerCreated "ab").2

/-- Ledger after OrgB's `AgreeToGet`: both parties have agreed. -/
def ledgerAgreed : Ledger := (AgreeToGet ctxGetB ledgerPut "ab").2

/-- Ledger after OrgA's successful transfer to OrgB. -/
def ledgerTransferred : Ledger :=
  (TransferCommodity idSha parseT1 ctxTransferA ledgerAgreed "ab" "OrgB").2

/-- A hand-built one-record ledger (the record OrgA's create would write),
convenient for well-formedness arguments quantified over all keys. -/
def ledgerWF : Ledger :=
  { pubState := updFn (fun _ => none) "ab" (some commodityAB)
    validationParam := fun _ => none
    privData := fun _ => none }

/-- Helper: `buildCollectionName` is injective — distinct orgs own
distinct implicit collections. -/
theorem collectionName_inj {a b : String}
    (h : buildCollectionName a = buildCollectionName b) : a = b := by
  have h2 := congrArg String.data h
  simp [buildCollectionName, String.data_append] at h2
  exact String.ext h2

/-- Helper: a record in `ledgerWF` always carries its own key as id. -/
theorem ledgerWF_wf : ∀ k0 c0, ledgerWF.pubState k0 = some c0 → c0.id = k0 := by
  intro k0 c0 h
  by_cases hk0 : k0 = "ab"
  · subst hk0
    have h2 : some commodityAB = some c0 := by simpa [ledgerWF, updFn] using h
    cases h2
    rfl
  · simp [ledgerWF, updFn, hk0] at h

/-- C6 as stated is false on the code: `buildCollectionName` prepends
`"_implicit_org_"` with a leading underscore, not `"implicit_org_"`. -/
theorem buildCollectionName_no_underscore_cex :
    buildCollectionName "Org1" ≠ "implicit_org_" ++ "Org1" := by
  decide

/-- C6 (amended): the partition-name function is the pure deterministic
1:1 mapping taking every organization id to the string
`"_implicit_org_<orgID>"` (with a leading underscore); injectivity makes
it 1:1, and as a plain function it has no side effects. -/
theorem buildCollectionName_spec (a b : String) :
    buildCollectionName a = "_implicit_org_" ++ a ∧
    (buildCollectionName a = buildCollectionName b → a = b) := by
  exact ⟨rfl, fun h => collectionName_inj h⟩

/-- Witness for C6's amended theorem at a concrete org id. -/
theorem buildCollectionName_spec_w :
    buildCollectionName "Org1" = "_implicit_org_" ++ "Org1" ∧ ("Org1" : String) = "Org1" :=
  ⟨(buildCollectionName_spec "Org1" "Org1").1,
   (buildCollectionName_spec "Org1" "Org1").2 (by decide)⟩

/-- C7: for every commodity and every caller whose org differs from the
commodity's current owner org, `ChangePublicDescription` fails with the
authorization error and returns the ledger unchanged (no write of any
kind). -/
theorem changePublicDescription_nonOwner_noWrite (ctx : Ctx) (l : Ledger)
    (commodityID newDescription clientOrgID : String) (c : Commodity)
    (hOrg : ctx.clientOrgID = some clientOrgID)
    (hC : l.pubState commodityID = some c)
    (hNe : clientOrgID ≠ c.ownerOrg) :
    ChangePublicDescription ctx l commodityID newDescription
      = (some (.descNotOwner clientOrgID c.ownerOrg), l) := by
  simp [ChangePublicDescription, getClientOrgID, hOrg, ReadCommodity, hC, hNe]

/-- Witness for C7: OrgB cannot update the description of the commodity
OrgA created. -/
theorem changePublicDescription_nonOwner_noWrite_w :
    ("OrgB" : String) ≠ commodityAB.ownerOrg ∧
    ChangePublicDescription ctxPlainB ledgerCreated "ab" "x"
      = (some (.descNotOwner "OrgB" commodityAB.ownerOrg), ledgerCreated) :=
  ⟨by decide,
   changePublicDescription_nonOwner_noWrite ctxPlainB ledgerCreated "ab" "x" "OrgB"
     commodityAB rfl (by decide) (by decide)⟩

/-- C3 (code bug): after the successful concrete transfer both receipts
are written, but their stored bytes are `[123, 125]` — the empty JSON
object — because Go's `json.Marshal` omits the unexported fields of the
`receipt` struct; the third conjunct shows the stored bytes are the same
for every transfer-key value and timestamp, so the records hold neither. -/
theorem receipts_hold_no_transferKey_or_timestamp :
    ledgerTransferred.privData (buildCollectionName "OrgB",
      .composite typeCommodityGetReceipt ["ab", "tx1"]) = some [123, 125] ∧
    ledgerTransferred.privData (buildCollectionName "OrgA",
      .composite typeCommodityPutReceipt ["tx1", "ab"]) = some [123, 125] ∧
    ∀ r : Receipt, marshalReceipt r = [123, 125] :=
  ⟨by decide, by decide, fun _ => rfl⟩

/-- C9 as stated is false on the code: in the concrete scenario the
second transfer call reusing T1 does fail, but its error is not one of
the "does not exist" (NotFound) errors — CHECK1 rejects the caller
first, since OrgA no longer owns the commodity. -/
theorem secondTransfer_notFoundError_cex :
    ((TransferCommodity idSha parseT1 ctxTransferA2 ledgerTransferred "ab" "OrgB").1).map
      Err.isNotFound = some false := by
  decide

/-- C9 (amended): in the concrete scenario (OrgA creates from blob X,
agrees to put T1, OrgB agrees to get with X and T1, OrgA transfers
disclosing T1 successfully, so OrgB becomes owner), a second transfer
call reusing T1 fails with the CHECK1 authorization error — OrgA is no
longer the owner — and performs zero ledger writes; the deleted
commitments are never consulted because CHECK1 aborts first. -/
theorem secondTransfer_authorizationError :
    (TransferCommodity idSha parseT1 ctxTransferA ledgerAgreed "ab" "OrgB").1 = none ∧
    (ledgerTransferred.pubState "ab").map Commodity.ownerOrg = some "OrgB" ∧
    TransferCommodity idSha parseT1 ctxTransferA2 ledgerTransferred "ab" "OrgB"
      = (some (.transferNotOwner "OrgA" "OrgB"), ledgerTransferred) :=
  ⟨by decide, by decide, rfl⟩

/-- C4: for every attribute blob `B` in the private payload,
`CreateAsset` returns the hex-encoded digest of `B` as the commodity id,
writes the public record with `ownerOrg = source = callerOrg` at that id
(for every prior ledger, present id or not — overwrite semantics, no
existence check), and a subsequent `ReadCommodity` of that id yields
exactly that record. -/
theorem createAsset_contentAddressed (sha256 : List Nat → List Nat) (ctx : Ctx)
    (l : Ledger) (target publicDescription callerOrg : String) (B : List Nat)
    (hT : ctx.transient "commodity_properties" = some B)
    (hOrg : ctx.clientOrgID = some callerOrg)
    (hPeer : ctx.peerOrgID = some callerOrg) :
    (CreateAsset sha256 ctx l target publicDescription).1
      = .ok (hexEncodeToString (sha256 B)) ∧
    (CreateAsset sha256 ctx l target publicDescription).2.pubState
        (hexEncodeToString (sha256 B))
      = some { objectType := "Commodity", id := hexEncodeToString (sha256 B),
               ownerOrg := callerOrg, source := callerOrg, target := target,
               publicDescription := publicDescription, detailedInformation := "" } ∧
    ReadCommodity (CreateAsset sha256 ctx l target publicDescription).2
        (hexEncodeToString (sha256 B))
      = .ok { objectType := "Commodity", id := hexEncodeToString (sha256 B),
              ownerOrg := callerOrg, source := callerOrg, target := target,
              publicDescription := publicDescription, detailedInformation := "" } := by
  simp [CreateAsset, getClientOrgID, hOrg, hT, verifyClientOrgMatchesPeerOrg, hPeer,
        setCommodityStateBasedEndorsement, Ledger.putState, Ledger.setValidationParam,
        Ledger.putPrivate, ReadCommodity]

/-- Witness for C4: OrgB re-creates from the same blob over a ledger where
the id is already present and owned by OrgA — the record is overwritten. -/
theorem createAsset_contentAddressed_w :
    ctxCreateB.transient "commodity_properties" = some [171] ∧
    (ledgerCreated.pubState "ab").map Commodity.ownerOrg = some "OrgA" ∧
    (CreateAsset idSha ctxCreateB ledgerCreated "t" "d").1
      = .ok (hexEncodeToString (idSha [171])) ∧
    (CreateAsset idSha ctxCreateB ledgerCreated "t" "d").2.pubState
        (hexEncodeToString (idSha [171]))
      = some { objectType := "Commodity", id := hexEncodeToString (idSha [171]),
               ownerOrg := "OrgB", source := "OrgB", target := "t",
               publicDescription := "d", detailedInformation := "" } ∧
    ReadCommodity (CreateAsset idSha ctxCreateB ledgerCreated "t" "d").2
        (hexEncodeToString (idSha [171]))
      = .ok { objectType := "Commodity", id := hexEncodeToString (idSha [171]),
              ownerOrg := "OrgB", source := "OrgB", target := "t",
              publicDescription := "d", detailedInformation := "" } :=
  ⟨by decide, by decide,
   (createAsset_contentAddressed idSha ctxCreateB ledgerCreated "t" "d" "OrgB" [171]
     rfl rfl rfl).1,
   (createAsset_contentAddressed idSha ctxCreateB ledgerCreated "t" "d" "OrgB" [171]
     rfl rfl rfl).2.1,
   (createAsset_contentAddressed idSha ctxCreateB ledgerCreated "t" "d" "OrgB" [171]
     rfl rfl rfl).2.2⟩

/-- C5: `VerifyCommodityProperties` is a round-trip check over the create
digest.  With `B0` the owner's on-ledger blob: called with the exact blob
used at create (and the content-addressed id established by create) it
returns true; with any blob whose digest differs from the owner's
on-ledger digest it fails with the digest-mismatch error; with a blob
whose digest matches the on-ledger digest while that digest does not
match the commodity id it fails with the distinct id-mismatch error. -/
theorem verifyCommodityProperties_roundTrip (sha256 : List Nat → List Nat) (ctx : Ctx)
    (l : Ledger) (commodityID : String) (c : Commodity) (B B0 : List Nat)
    (hT : ctx.transient "Commodity_properties" = some B)
    (hC : l.pubState commodityID = some c)
    (hB0 : l.privData (buildCollectionName c.ownerOrg, .simple commodityID) = some B0) :
    ((B = B0 ∧ hexEncodeToString (sha256 B0) = commodityID) →
      VerifyCommodityProperties sha256 ctx l commodityID = .ok true) ∧
    (sha256 B ≠ sha256 B0 →
      VerifyCommodityProperties sha256 ctx l commodityID
        = .error (.verifyHashMismatch (sha256 B) B (sha256 B0))) ∧
    ((sha256 B = sha256 B0 ∧ hexEncodeToString (sha256 B0) ≠ commodityID) →
      VerifyCommodityProperties sha256 ctx l commodityID
        = .error (.verifyIdMismatch (sha256 B) B (sha256 B0) commodityID)) ∧
    Err.verifyHashMismatch (sha256 B) B (sha256 B0)
      ≠ Err.verifyIdMismatch (sha256 B) B (sha256 B0) commodityID := by
  refine ⟨?_, ?_, ?_, by simp⟩
  · rintro ⟨rfl, hid⟩
    simp [VerifyCommodityProperties, hT, ReadCommodity, hC, getPrivateDataHash, hB0, hid]
  · intro hne
    simp [VerifyCommodityProperties, hT, ReadCommodity, hC, getPrivateDataHash, hB0, hne]
  · rintro ⟨heq, hid⟩
    simp [VerifyCommodityProperties, hT, ReadCommodity, hC, getPrivateDataHash, hB0,
      heq, hid]

/-- Witness for C5: verifying the exact blob used at create succeeds on
the created ledger. -/
theorem verifyCommodityProperties_roundTrip_w :
    ledgerCreated.pubState "ab" = some commodityAB ∧
    VerifyCommodityProperties idSha ctxGetB ledgerCreated "ab" = .ok true :=
  ⟨by decide,
   (verifyCommodityProperties_roundTrip idSha ctxGetB ledgerCreated "ab" commodityAB
     [171] [171] rfl (by decide) (by decide)).1 ⟨rfl, by decide⟩⟩

/-- Helper: `verifyTransferConditions` returns nil exactly when CHECK1,
CHECK2 and CHECK3 all hold. -/
theorem verifyTransferConditions_none_iff (sha256 : List Nat → List Nat) (l : Ledger)
    (c : Commodity) (clientOrgID upstreamOrgID : String) (tk : List Nat) :
    verifyTransferConditions sha256 l c clientOrgID upstreamOrgID tk = none ↔
      CHECK1 c clientOrgID ∧ CHECK2 sha256 l c clientOrgID upstreamOrgID ∧
      CHECK3 sha256 l c clientOrgID upstreamOrgID tk := by
  by_cases h1 : clientOrgID = c.ownerOrg
  · subst h1
    cases hp : getPrivateDataHash sha256 l (buildCollectionName c.ownerOrg)
        (.simple c.id) with
    | none => simp [verifyTransferConditions, CHECK1, CHECK2, CHECK3, hp]
    | some a =>
      cases hg : getPrivateDataHash sha256 l (buildCollectionName upstreamOrgID)
          (.simple c.id) with
      | none => simp [verifyTransferConditions, CHECK1, CHECK2, CHECK3, hp, hg]
      | some b =>
        by_cases hab : a = b
        · cases hu : getPrivateDataHash sha256 l (buildCollectionName c.ownerOrg)
              (.composite typeCommodityForTransfer [c.id]) with
          | none =>
            simp [verifyTransferConditions, CHECK1, CHECK2, CHECK3, hp, hg, hab, hu]
          | some u =>
            cases hd : getPrivateDataHash sha256 l (buildCollectionName upstreamOrgID)
                (.composite typeCommodityKey [c.id]) with
            | none =>
              simp [verifyTransferConditions, CHECK1, CHECK2, CHECK3, hp, hg, hab, hu, hd]
            | some d =>
              by_cases hcu : sha256 tk = u
              · by_cases hcd : sha256 tk = d
                · simp [verifyTransferConditions, CHECK1, CHECK2, CHECK3, hp, hg, hab,
                    hu, hd, hcu, hcd, hcd.symm.trans hcu]
                · simp only [verifyTransferConditions, CHECK1, CHECK2, CHECK3, hp, hg]
                  simp [hab, hu, hd, hcu]
                  exact eq_comm
              · simp [verifyTransferConditions, CHECK1, CHECK2, CHECK3, hp, hg, hab,
                  hu, hd, hcu, Ne.symm hcu]
        · simp [verifyTransferConditions, CHECK1, CHECK2, CHECK3, hp, hg, hab]
  · simp [verifyTransferConditions, CHECK1, h1]

/-- Helper: once the caller, disclosed key, parse and read succeed,
`TransferCommodity` is the verification gate followed by the mutation. -/
theorem transferCommodity_run (sha256 : List Nat → List Nat)
    (parseAgreement : List Nat → Option Agreement) (ctx : Ctx) (l : Ledger)
    (commodityID downStreamOrgID clientOrgID : String) (tk : List Nat)
    (ag : Agreement) (c : Commodity)
    (hOrg : ctx.clientOrgID = some clientOrgID)
    (hTk : ctx.transient "Commodity_transferKey" = some tk)
    (hAg : parseAgreement tk = some ag)
    (hC : l.pubState commodityID = some c) :
    TransferCommodity sha256 parseAgreement ctx l commodityID downStreamOrgID
      = match verifyTransferConditions sha256 l c clientOrgID downStreamOrgID tk with
        | some e => (some e, l)
        | none => transferCommodityState ctx l c clientOrgID downStreamOrgID
            ag.transferKey := by
  simp [TransferCommodity, getClientOrgID, hOrg, hTk, hAg, ReadCommodity, hC]

/-- Helper: with a convertible timestamp the mutation itself reports no
error. -/
theorem transferCommodityState_fst (ctx : Ctx) (l : Ledger) (c : Commodity)
    (clientOrgID upstreamOrgID : String) (transferKey : Int) (ts : Nat)
    (hTs : ctx.txTimestamp = some ts) :
    (transferCommodityState ctx l c clientOrgID upstreamOrgID transferKey).1 = none := by
  simp [transferCommodityState, hTs]

/-- Helper: a successful transfer implies the caller was the owner and the
result is exactly the multi-record mutation. -/
theorem transferCommodity_success_state (sha256 : List Nat → List Nat)
    (parseAgreement : List Nat → Option Agreement) (ctx : Ctx) (l : Ledger)
    (commodityID downStreamOrgID clientOrgID : String) (tk : List Nat)
    (ag : Agreement) (c : Commodity)
    (hOrg : ctx.clientOrgID = some clientOrgID)
    (hTk : ctx.transient "Commodity_transferKey" = some tk)
    (hAg : parseAgreement tk = some ag)
    (hC : l.pubState commodityID = some c)
    (hSucc : (TransferCommodity sha256 parseAgreement ctx l commodityID
      downStreamOrgID).1 = none) :
    clientOrgID = c.ownerOrg ∧ ∃ ts, ctx.txTimestamp = some ts ∧
      TransferCommodity sha256 parseAgreement ctx l commodityID downStreamOrgID
        = transferCommodityState ctx l c clientOrgID downStreamOrgID ag.transferKey := by
  have hrun := transferCommodity_run sha256 parseAgreement ctx l commodityID
    downStreamOrgID clientOrgID tk ag c hOrg hTk hAg hC
  have hiff := verifyTransferConditions_none_iff sha256 l c clientOrgID downStreamOrgID tk
  cases hv : verifyTransferConditions sha256 l c clientOrgID downStreamOrgID tk with
  | some e =>
    rw [hv] at hrun
    rw [hrun] at hSucc
    simp at hSucc
  | none =>
    rw [hv] at hrun
    have hch := hiff.mp hv
    cases hts : ctx.txTimestamp with
    | none =>
      rw [hrun] at hSucc
      simp [transferCommodityState, hts] at hSucc
    | some ts => exact ⟨hch.1, ts, rfl, hrun⟩

/-- Helper: `agreeToTransfer` writes only private data. -/
theorem agreeToTransfer_pubState (ctx : Ctx) (l : Ledger)
    (commodityID transferType : String) :
    (agreeToTransfer ctx l commodityID transferType).2.pubState = l.pubState := by
  cases hco : ctx.clientOrgID with
  | none => simp [agreeToTransfer, getClientOrgID, hco]
  | some o =>
    cases htr : ctx.transient "commodity_transferKey" with
    | none => simp [agreeToTransfer, getClientOrgID, hco, htr]
    | some tkb => simp [agreeToTransfer, getClientOrgID, hco, htr, Ledger.putPrivate]

/-- Helper: the only public-state write of the transfer mutation is the
updated record at the commodity's own id. -/
theorem transferCommodityState_pubState (ctx : Ctx) (l : Ledger) (c : Commodity)
    (clientOrgID upstreamOrgID : String) (transferKey : Int) :
    (transferCommodityState ctx l c clientOrgID upstreamOrgID transferKey).2.pubState
      = updFn l.pubState c.id
          (some { c with source := c.ownerOrg, ownerOrg := upstreamOrgID }) := by
  cases hts : ctx.txTimestamp <;>
    simp [transferCommodityState, hts, setCommodityStateBasedEndorsement,
      Ledger.putState, Ledger.setValidationParam, Ledger.putPrivate, Ledger.delPrivate]

/-- C1: given a resolvable caller, a disclosed transfer-key blob that
unmarshals, an existing commodity record and a convertible transaction
timestamp, `TransferCommodity` succeeds if and only if CHECK1, CHECK2 and
CHECK3 all hold; and whenever any check fails the call returns an error
with the ledger exactly as it was — zero public-state, policy or
private-data writes. -/
theorem transferCommodity_iff_checks (sha256 : List Nat → List Nat)
    (parseAgreement : List Nat → Option Agreement) (ctx : Ctx) (l : Ledger)
    (commodityID downStreamOrgID clientOrgID : String) (tk : List Nat)
    (ag : Agreement) (c : Commodity) (ts : Nat)
    (hOrg : ctx.clientOrgID = some clientOrgID)
    (hTk : ctx.transient "Commodity_transferKey" = some tk)
    (hAg : parseAgreement tk = some ag)
    (hC : l.pubState commodityID = some c)
    (hTs : ctx.txTimestamp = some ts) :
    ((TransferCommodity sha256 parseAgreement ctx l commodityID downStreamOrgID).1 = none
      ↔ CHECK1 c clientOrgID ∧ CHECK2 sha256 l c clientOrgID downStreamOrgID ∧
        CHECK3 sha256 l c clientOrgID downStreamOrgID tk) ∧
    (¬(CHECK1 c clientOrgID ∧ CHECK2 sha256 l c clientOrgID downStreamOrgID ∧
        CHECK3 sha256 l c clientOrgID downStreamOrgID tk) →
      (TransferCommodity sha256 parseAgreement ctx l commodityID downStreamOrgID).1 ≠ none ∧
      (TransferCommodity sha256 parseAgreement ctx l commodityID downStreamOrgID).2 = l) := by
  have hrun := transferCommodity_run sha256 parseAgreement ctx l commodityID
    downStreamOrgID clientOrgID tk ag c hOrg hTk hAg hC
  have hiff := verifyTransferConditions_none_iff sha256 l c clientOrgID downStreamOrgID tk
  cases hv : verifyTransferConditions sha256 l c clientOrgID downStreamOrgID tk with
  | some e =>
    rw [hv] at hrun
    refine ⟨?_, fun _ => ?_⟩
    · rw [hrun]
      constructor
      · intro h
        exact absurd h (by simp)
      · intro hch
        have h0 := hiff.mpr hch
        rw [hv] at h0
        exact Option.noConfusion h0
    · rw [hrun]
      exact ⟨by simp, rfl⟩
  | none =>
    rw [hv] at hrun
    have hch := hiff.mp hv
    constructor
    · rw [hrun]
      simp [transferCommodityState_fst ctx l c clientOrgID downStreamOrgID
        ag.transferKey ts hTs, hch]
    · intro hn
      exact absurd hch hn

/-- Witness for C1 at the fully-agreed concrete scenario. -/
theorem transferCommodity_iff_checks_w :
    ledgerAgreed.pubState "ab" = some commodityAB ∧
    ((TransferCommodity idSha parseT1 ctxTransferA ledgerAgreed "ab" "OrgB").1 = none ↔
      CHECK1 commodityAB "OrgA" ∧ CHECK2 idSha ledgerAgreed commodityAB "OrgA" "OrgB" ∧
      CHECK3 idSha ledgerAgreed commodityAB "OrgA" "OrgB" [1, 2]) :=
  ⟨by decide,
   (transferCommodity_iff_checks idSha parseT1 ctxTransferA ledgerAgreed "ab" "OrgB"
     "OrgA" [1, 2] { id := "ab", transferKey := 5, transferID := "T1" } commodityAB 7
     rfl (by decide) (by decide) (by decide) rfl).1⟩

/-- C2: after every successful `TransferCommodity` by the current owner
(with the record well-formed, `c.id = commodityID`, distinct owner and
recipient orgs, and the tx-unique receipt keys fresh), the public record
has `ownerOrg = recipientOrg` and `source =` the previous owner, the
authorization policy is exactly the recipient org, the former owner's
attribute blob and both role-scoped commitment records are absent, and
exactly one new receipt appears in each party's partition (the getter
receipt in the recipient's, the putter receipt in the former owner's,
with every other receipt-scoped key untouched). -/
theorem transfer_post (sha256 : List Nat → List Nat)
    (parseAgreement : List Nat → Option Agreement) (ctx : Ctx) (l : Ledger)
    (commodityID downStreamOrgID clientOrgID : String) (tk : List Nat)
    (ag : Agreement) (c : Commodity)
    (hOrg : ctx.clientOrgID = some clientOrgID)
    (hTk : ctx.transient "Commodity_transferKey" = some tk)
    (hAg : parseAgreement tk = some ag)
    (hC : l.pubState commodityID = some c)
    (hWFc : c.id = commodityID)
    (hNe : clientOrgID ≠ downStreamOrgID)
    (hFreshG : l.privData (buildCollectionName downStreamOrgID,
      .composite typeCommodityGetReceipt [commodityID, ctx.txID]) = none)
    (hFreshP : l.privData (buildCollectionName clientOrgID,
      .composite typeCommodityPutReceipt [ctx.txID, commodityID]) = none)
    (hSucc : (TransferCommodity sha256 parseAgreement ctx l commodityID
      downStreamOrgID).1 = none) :
    (TransferCommodity sha256 parseAgreement ctx l commodityID downStreamOrgID).2.pubState
        commodityID
      = some { c with source := c.ownerOrg, ownerOrg := downStreamOrgID } ∧
    (TransferCommodity sha256 parseAgreement ctx l commodityID
        downStreamOrgID).2.validationParam commodityID = some [downStreamOrgID] ∧
    (TransferCommodity sha256 parseAgreement ctx l commodityID downStreamOrgID).2.privData
        (buildCollectionName clientOrgID, .simple commodityID) = none ∧
    (TransferCommodity sha256 parseAgreement ctx l commodityID downStreamOrgID).2.privData
        (buildCollectionName clientOrgID, .composite typeCommodityForTransfer [commodityID])
      = none ∧
    (TransferCommodity sha256 parseAgreement ctx l commodityID downStreamOrgID).2.privData
        (buildCollectionName downStreamOrgID, .composite typeCommodityKey [commodityID])
      = none ∧
    (TransferCommodity sha256 parseAgreement ctx l commodityID downStreamOrgID).2.privData
        (buildCollectionName downStreamOrgID,
          .composite typeCommodityGetReceipt [commodityID, ctx.txID]) = some [123, 125] ∧
    (TransferCommodity sha256 parseAgreement ctx l commodityID downStreamOrgID).2.privData
        (buildCollectionName clientOrgID,
          .composite typeCommodityPutReceipt [ctx.txID, commodityID]) = some [123, 125] ∧
    (∀ k : PKey, isReceiptKey k = true →
      k ≠ .composite typeCommodityGetReceipt [commodityID, ctx.txID] →
      (TransferCommodity sha256 parseAgreement ctx l commodityID downStreamOrgID).2.privData
          (buildCollectionName downStreamOrgID, k)
        = l.privData (buildCollectionName downStreamOrgID, k)) ∧
    (∀ k : PKey, isReceiptKey k = true →
      k ≠ .composite typeCommodityPutReceipt [ctx.txID, commodityID] →
      (TransferCommodity sha256 parseAgreement ctx l commodityID downStreamOrgID).2.privData
          (buildCollectionName clientOrgID, k)
        = l.privData (buildCollectionName clientOrgID, k)) := by
  obtain ⟨hOwn, ts, hts, hrun⟩ := transferCommodity_success_state sha256 parseAgreement
    ctx l commodityID downStreamOrgID clientOrgID tk ag c hOrg hTk hAg hC hSucc
  subst hWFc
  have hColl : buildCollectionName clientOrgID ≠ buildCollectionName downStreamOrgID :=
    fun h => hNe (collectionName_inj h)
  rw [hrun]
  refine ⟨?_, ?_, ?_, ?_, ?_, ?_, ?_, ?_, ?_⟩
  · simp [transferCommodityState, hts, setCommodityStateBasedEndorsement,
      Ledger.putState, Ledger.setValidationParam, Ledger.putPrivate, Ledger.delPrivate,
      updFn]
  · simp [transferCommodityState, hts, setCommodityStateBasedEndorsement,
      Ledger.putState, Ledger.setValidationParam, Ledger.putPrivate, Ledger.delPrivate,
      updFn]
  · simp [transferCommodityState, hts, setCommodityStateBasedEndorsement,
      Ledger.putState, Ledger.setValidationParam, Ledger.putPrivate, Ledger.delPrivate,
      updFn, typeCommodityForTransfer, typeCommodityKey, typeCommodityGetReceipt,
      typeCommodityPutReceipt]
  · simp [transferCommodityState, hts, setCommodityStateBasedEndorsement,
      Ledger.putState, Ledger.setValidationParam, Ledger.putPrivate, Ledger.delPrivate,
      updFn, typeCommodityForTransfer, typeCommodityKey, typeCommodityGetReceipt,
      typeCommodityPutReceipt]
  · simp [transferCommodityState, hts, setCommodityStateBasedEndorsement,
      Ledger.putState, Ledger.setValidationParam, Ledger.putPrivate, Ledger.delPrivate,
      updFn, typeCommodityForTransfer, typeCommodityKey, typeCommodityGetReceipt,
      typeCommodityPutReceipt]
  · simp [transferCommodityState, hts, setCommodityStateBasedEndorsement,
      Ledger.putState, Ledger.setValidationParam, Ledger.putPrivate, Ledger.delPrivate,
      updFn, marshalReceipt, typeCommodityForTransfer, typeCommodityKey,
      typeCommodityGetReceipt, typeCommodityPutReceipt]
  · simp [transferCommodityState, hts, setCommodityStateBasedEndorsement,
      Ledger.putState, Ledger.setValidationParam, Ledger.putPrivate, Ledger.delPrivate,
      updFn, marshalReceipt, typeCommodityForTransfer, typeCommodityKey,
      typeCommodityGetReceipt, typeCommodityPutReceipt]
  · intro k hk hkne
    cases k with
    | simple s => simp [isReceiptKey] at hk
    | composite t attrs =>
      simp [isReceiptKey, typeCommodityGetReceipt, typeCommodityPutReceipt] at hk
      cases hk with
      | inl ht =>
        subst ht
        simp [transferCommodityState, hts, setCommodityStateBasedEndorsement,
          Ledger.putState, Ledger.setValidationParam, Ledger.putPrivate,
          Ledger.delPrivate, updFn, typeCommodityForTransfer, typeCommodityKey,
          typeCommodityGetReceipt, typeCommodityPutReceipt, Ne.symm hColl]
        intro hattrs
        exact absurd (by simp [typeCommodityGetReceipt, hattrs]) hkne
      | inr ht =>
        subst ht
        simp [transferCommodityState, hts, setCommodityStateBasedEndorsement,
          Ledger.putState, Ledger.setValidationParam, Ledger.putPrivate,
          Ledger.delPrivate, updFn, typeCommodityForTransfer, typeCommodityKey,
          typeCommodityGetReceipt, typeCommodityPutReceipt, Ne.symm hColl]
  · intro k hk hkne
    cases k with
    | simple s => simp [isReceiptKey] at hk
    | composite t attrs =>
      simp [isReceiptKey, typeCommodityGetReceipt, typeCommodityPutReceipt] at hk
      cases hk with
      | inl ht =>
        subst ht
        simp [transferCommodityState, hts, setCommodityStateBasedEndorsement,
          Ledger.putState, Ledger.setValidationParam, Ledger.putPrivate,
          Ledger.delPrivate, updFn, typeCommodityForTransfer, typeCommodityKey,
          typeCommodityGetReceipt, typeCommodityPutReceipt, hColl]
      | inr ht =>
        subst ht
        simp [transferCommodityState, hts, setCommodityStateBasedEndorsement,
          Ledger.putState, Ledger.setValidationParam, Ledger.putPrivate,
          Ledger.delPrivate, updFn, typeCommodityForTransfer, typeCommodityKey,
          typeCommodityGetReceipt, typeCommodityPutReceipt, hColl]
        intro hattrs
        exact absurd (by simp [typeCommodityPutReceipt, hattrs]) hkne

/-- Witness for C2 at the concrete successful transfer. -/
theorem transfer_post_w :
    (TransferCommodity idSha parseT1 ctxTransferA ledgerAgreed "ab" "OrgB").1 = none ∧
    (TransferCommodity idSha parseT1 ctxTransferA ledgerAgreed "ab" "OrgB").2.pubState "ab"
      = some { commodityAB with source := commodityAB.ownerOrg, ownerOrg := "OrgB" } ∧
    (TransferCommodity idSha parseT1 ctxTransferA ledgerAgreed "ab"
      "OrgB").2.validationParam "ab" = some ["OrgB"] ∧
    (TransferCommodity idSha parseT1 ctxTransferA ledgerAgreed "ab" "OrgB").2.privData
      (buildCollectionName "OrgA", .simple "ab") = none ∧
    (TransferCommodity idSha parseT1 ctxTransferA ledgerAgreed "ab" "OrgB").2.privData
      (buildCollectionName "OrgB",
        .composite typeCommodityGetReceipt ["ab", ctxTransferA.txID]) = some [123, 125] := by
  have h := transfer_post idSha parseT1 ctxTransferA ledgerAgreed "ab" "OrgB" "OrgA"
    [1, 2] { id := "ab", transferKey := 5, transferID := "T1" } commodityAB rfl
    (by decide) (by decide) (by decide) (by decide) (by decide) (by decide) (by decide)
    (by decide)
  exact ⟨by decide, h.1, h.2.1, h.2.2.1, h.2.2.2.2.2.1⟩

/-- C10: for every successful `TransferCommodity` (record well-formed,
`c.id = commodityID`), the public record's id, target, publicDescription
and detailedInformation fields after the call are exactly those of the
record read before it — the mutation writes back the record it read with
only ownerOrg and source modified. -/
theorem transfer_preserves_unrelated_fields (sha256 : List Nat → List Nat)
    (parseAgreement : List Nat → Option Agreement) (ctx : Ctx) (l : Ledger)
    (commodityID downStreamOrgID clientOrgID : String) (tk : List Nat)
    (ag : Agreement) (c : Commodity)
    (hOrg : ctx.clientOrgID = some clientOrgID)
    (hTk : ctx.transient "Commodity_transferKey" = some tk)
    (hAg : parseAgreement tk = some ag)
    (hC : l.pubState commodityID = some c)
    (hWFc : c.id = commodityID)
    (hSucc : (TransferCommodity sha256 parseAgreement ctx l commodityID
      downStreamOrgID).1 = none) :
    ((TransferCommodity sha256 parseAgreement ctx l commodityID downStreamOrgID).2.pubState
        commodityID).map Commodity.id = some c.id ∧
    ((TransferCommodity sha256 parseAgreement ctx l commodityID downStreamOrgID).2.pubState
        commodityID).map Commodity.target = some c.target ∧
    ((TransferCommodity sha256 parseAgreement ctx l commodityID downStreamOrgID).2.pubState
        commodityID).map Commodity.publicDescription = some c.publicDescription ∧
    ((TransferCommodity sha256 parseAgreement ctx l commodityID downStreamOrgID).2.pubState
        commodityID).map Commodity.detailedInformation = some c.detailedInformation := by
  obtain ⟨hOwn, ts, hts, hrun⟩ := transferCommodity_success_state sha256 parseAgreement
    ctx l commodityID downStreamOrgID clientOrgID tk ag c hOrg hTk hAg hC hSucc
  subst hWFc
  rw [hrun, transferCommodityState_pubState]
  simp

/-- Witness for C10 at the concrete successful transfer. -/
theorem transfer_preserves_unrelated_fields_w :
    ((TransferCommodity idSha parseT1 ctxTransferA ledgerAgreed "ab" "OrgB").2.pubState
        "ab").map Commodity.id = some commodityAB.id ∧
    ((TransferCommodity idSha parseT1 ctxTransferA ledgerAgreed "ab" "OrgB").2.pubState
        "ab").map Commodity.target = some commodityAB.target ∧
    ((TransferCommodity idSha parseT1 ctxTransferA ledgerAgreed "ab" "OrgB").2.pubState
        "ab").map Commodity.publicDescription = some commodityAB.publicDescription ∧
    ((TransferCommodity idSha parseT1 ctxTransferA ledgerAgreed "ab" "OrgB").2.pubState
        "ab").map Commodity.detailedInformation = some commodityAB.detailedInformation :=
  transfer_preserves_unrelated_fields idSha parseT1 ctxTransferA ledgerAgreed "ab" "OrgB"
    "OrgA" [1, 2] { id := "ab", transferKey := 5, transferID := "T1" } commodityAB rfl
    (by decide) (by decide) (by decide) (by decide) (by decide)

/-- C8 as stated is false on the code: `CreateAsset` performs no existence
check, so re-creating an already-present content-addressed id from another
organization overwrites the record and mutates `ownerOrg` without any
`TransferCommodity` call — here OrgB's create flips the owner of the
commodity OrgA created from OrgA to OrgB. -/
theorem createAsset_mutates_ownerOrg_cex :
    ((CreateAsset idSha ctxCreateB ledgerCreated "t" "d").2.pubState "ab").map
      Commodity.ownerOrg = some "OrgB" ∧
    (ledgerCreated.pubState "ab").map Commodity.ownerOrg = some "OrgA" :=
  ⟨by decide, by decide⟩

/-- C8 (amended): over a well-formed ledger (each stored record carries
its key as id) every entry point preserves the `id` field of every stored
record, and `ownerOrg` is never mutated by `ChangePublicDescription`,
`AgreeToPut` or `AgreeToGet` (nor by the read-only queries); `ownerOrg`
changes only through a successful `TransferCommodity` commit or through
`CreateAsset` overwriting an existing content-addressed id. -/
theorem entryPoints_id_owner_preservation (sha256 : List Nat → List Nat)
    (parseAgreement : List Nat → Option Agreement) (ctx : Ctx) (l : Ledger)
    (cid1 nd cid2 cid3 cid4 down tgt dsc k : String) (cc : Commodity)
    (hWF : ∀ k0 c0, l.pubState k0 = some c0 → c0.id = k0)
    (hk : l.pubState k = some cc) :
    (((ChangePublicDescription ctx l cid1 nd).2.pubState k).map Commodity.id = some cc.id ∧
     ((ChangePublicDescription ctx l cid1 nd).2.pubState k).map Commodity.ownerOrg
       = some cc.ownerOrg) ∧
    (AgreeToPut ctx l cid2).2.pubState = l.pubState ∧
    (AgreeToGet ctx l cid3).2.pubState = l.pubState ∧
    ((TransferCommodity sha256 parseAgreement ctx l cid4 down).2.pubState k).map
      Commodity.id = some cc.id ∧
    ((CreateAsset sha256 ctx l tgt dsc).2.pubState k).map Commodity.id = some cc.id := by
  refine ⟨?_, ?_, ?_, ?_, ?_⟩
  · cases hco : ctx.clientOrgID with
    | none => simp [ChangePublicDescription, getClientOrgID, hco, hk]
    | some o =>
      cases hcr : l.pubState cid1 with
      | none => simp [ChangePublicDescription, getClientOrgID, hco, ReadCommodity, hcr, hk]
      | some cR =>
        by_cases ho : o = cR.ownerOrg
        · by_cases hkc : k = cid1
          · subst hkc
            rw [hk] at hcr
            cases hcr
            simp [ChangePublicDescription, getClientOrgID, hco, ReadCommodity, hk, ho,
              Ledger.putState, updFn]
          · simp [ChangePublicDescription, getClientOrgID, hco, ReadCommodity, hcr, ho,
              Ledger.putState, updFn, hkc, hk]
        · simp [ChangePublicDescription, getClientOrgID, hco, ReadCommodity, hcr, ho, hk]
  · cases hcr : l.pubState cid2 with
    | none => simp [AgreeToPut, ReadCommodity, hcr]
    | some cR =>
      cases hco : ctx.clientOrgID with
      | none => simp [AgreeToPut, ReadCommodity, hcr, getClientOrgID, hco]
      | some o =>
        cases hpo : ctx.peerOrgID with
        | none =>
          simp [AgreeToPut, ReadCommodity, hcr, getClientOrgID, hco,
            verifyClientOrgMatchesPeerOrg, hpo]
        | some p =>
          by_cases hop : o = p
          · subst hop
            by_cases how : o = cR.ownerOrg <;>
              simp [AgreeToPut, ReadCommodity, hcr, getClientOrgID, hco,
                verifyClientOrgMatchesPeerOrg, hpo, how, agreeToTransfer_pubState]
          · simp [AgreeToPut, ReadCommodity, hcr, getClientOrgID, hco,
              verifyClientOrgMatchesPeerOrg, hpo, hop]
  · cases hco : ctx.clientOrgID with
    | none => simp [AgreeToGet, getClientOrgID, hco]
    | some o =>
      cases hpo : ctx.peerOrgID with
      | none => simp [AgreeToGet, getClientOrgID, hco, verifyClientOrgMatchesPeerOrg, hpo]
      | some p =>
        by_cases hop : o = p
        · cases htr : ctx.transient "Commodity_properties" with
          | none =>
            simp [AgreeToGet, getClientOrgID, hco, verifyClientOrgMatchesPeerOrg, hpo,
              hop, htr]
          | some props =>
            simp [AgreeToGet, getClientOrgID, hco, verifyClientOrgMatchesPeerOrg, hpo,
              hop, htr, agreeToTransfer_pubState, Ledger.putPrivate]
        · simp [AgreeToGet, getClientOrgID, hco, verifyClientOrgMatchesPeerOrg, hpo, hop]
  · cases hco : ctx.clientOrgID with
    | none => simp [TransferCommodity, getClientOrgID, hco, hk]
    | some o =>
      cases htr : ctx.transient "Commodity_transferKey" with
      | none => simp [TransferCommodity, getClientOrgID, hco, htr, hk]
      | some tkb =>
        cases hag : parseAgreement tkb with
        | none => simp [TransferCommodity, getClientOrgID, hco, htr, hag, hk]
        | some ag =>
          cases hcr : l.pubState cid4 with
          | none => simp [TransferCommodity, getClientOrgID, hco, htr, hag,
              ReadCommodity, hcr, hk]
          | some cR =>
            cases hv : verifyTransferConditions sha256 l cR o down tkb with
            | some e =>
              simp [TransferCommodity, getClientOrgID, hco, htr, hag, ReadCommodity,
                hcr, hv, hk]
            | none =>
              have hpub := transferCommodityState_pubState ctx l cR o down ag.transferKey
              by_cases hkc : k = cR.id
              · subst hkc
                have hid : cc.id = cR.id := hWF _ _ hk
                simp [TransferCommodity, getClientOrgID, hco, htr, hag, ReadCommodity,
                  hcr, hv, hpub, updFn, hid]
              · simp [TransferCommodity, getClientOrgID, hco, htr, hag, ReadCommodity,
                  hcr, hv, hpub, updFn, hkc, hk]
  · cases htr : ctx.transient "commodity_properties" with
    | none => simp [CreateAsset, htr, hk]
    | some props =>
      cases hco : ctx.clientOrgID with
      | none => simp [CreateAsset, htr, getClientOrgID, hco, hk]
      | some o =>
        cases hpo : ctx.peerOrgID with
        | none =>
          simp [CreateAsset, htr, getClientOrgID, hco, verifyClientOrgMatchesPeerOrg,
            hpo, hk]
        | some p =>
          by_cases hop : o = p
          · by_cases hkc : k = hexEncodeToString (sha256 props)
            · subst hkc
              have hid := hWF _ _ hk
              simp [CreateAsset, htr, getClientOrgID, hco, verifyClientOrgMatchesPeerOrg,
                hpo, hop, setCommodityStateBasedEndorsement, Ledger.putState,
                Ledger.setValidationParam, Ledger.putPrivate, updFn, hid]
            · simp [CreateAsset, htr, getClientOrgID, hco, verifyClientOrgMatchesPeerOrg,
                hpo, hop, setCommodityStateBasedEndorsement, Ledger.putState,
                Ledger.setValidationParam, Ledger.putPrivate, updFn, hkc, hk]
          · simp [CreateAsset, htr, getClientOrgID, hco, verifyClientOrgMatchesPeerOrg,
              hpo, hop, hk]

/-- Witness for the amended C8 over the one-record well-formed ledger. -/
theorem entryPoints_id_owner_preservation_w :
    ledgerWF.pubState "ab" = some commodityAB ∧
    ((ChangePublicDescription ctxCreateB ledgerWF "ab" "x").2.pubState "ab").map
      Commodity.ownerOrg = some commodityAB.ownerOrg ∧
    ((CreateAsset idSha ctxCreateB ledgerWF "t" "d").2.pubState "ab").map
      Commodity.id = some commodityAB.id := by
  have h := entryPoints_id_owner_preservation idSha parseT1 ctxCreateB ledgerWF "ab" "x"
    "ab" "ab" "ab" "OrgB" "t" "d" "ab" commodityAB ledgerWF_wf (by decide)
  exact ⟨by decide, h.1.2, h.2.2.2.2⟩
